import Mathlib

/-!
Shallow embedding of the video frame-sampling analysis pipeline of the
track-eye-guardian-vision repository.

Sources embedded:
- `src/components/VideoAnalysis.tsx`: `getDangerLevel`, `getDescriptionForType`,
  `analyzeCurrentFrame`, `startAnalysis`, `stopAnalysis`, `handleReset`,
  `exportReport`, and the `setInterval` sampling loop.
- `useYOLOv8Detection` hook: `classMapping`, `getDetectionType`, `processFrame`
  (its pure result-conversion and confidence-filtering core).

Numbers are modelled as rationals.  React component state, the parent-held
video status (updated through `onStatusUpdate`), and the state captured by the
interval closure installed in `startAnalysis` are modelled explicitly: in
JavaScript, the callback passed to `setInterval` closes over the values of
`detections` and (through `analyzeCurrentFrame`) `isProcessing` from the render
in which `startAnalysis` was created; later `setState` updates produce new
renders and new closures, but the installed interval keeps invoking the old
one.  Those captured values are the `snapDetections` / `snapProcessing` fields
below, distinct from the live `detections` / `processing` fields.
The HTML media element clamps `currentTime` assignments to the duration, and
its `ended` attribute is true exactly when the playback position has reached
the end; seeking while paused fires `timeupdate` (recomputing `progress`) but
not the `ended` event, so the `handleEnded` listener is not reached by the
analysis loop's seeks and is not part of the loop model.
-/

namespace TrackEye

/-- Danger levels, `Detection['dangerLevel']` in the source. -/
inductive DangerLevel
  | low
  | medium
  | high
  | critical
  deriving DecidableEq, Repr

/-- Video/session status, `UploadedVideo['status']` in the source. -/
inductive VStatus
  | ready
  | analyzing
  | completed
  | error
  deriving DecidableEq, Repr

/-- Bounding box of a raw model result (`result.box` in `processFrame`). -/
structure RawBox where
  xmin : ℚ
  ymin : ℚ
  xmax : ℚ
  ymax : ℚ
  deriving DecidableEq, Repr

/-- One raw result from the YOLOv8 model call: `{score, class_id, box}`.
`class_id` is read as `result.class_id || 0` in the source, so an absent id is
already the number 0 here. -/
structure RawResult where
  score : ℚ
  classId : ℕ
  box : RawBox
  deriving DecidableEq, Repr

/-- `DetectionResult` of the `useYOLOv8Detection` hook. -/
structure DetectionResult where
  id : String
  type : String
  confidence : ℚ
  bboxX : ℚ
  bboxY : ℚ
  bboxW : ℚ
  bboxH : ℚ
  centerX : ℚ
  centerY : ℚ
  deriving DecidableEq, Repr

/-- `classMapping` of the `useYOLOv8Detection` hook: YOLO class id to the
domain kind string; ids outside the record are absent (`none`). -/
def classMapping (n : ℕ) : Option String :=
  match n with
  | 0 => some "person"
  | 1 => some "animal"
  | 2 => some "vehicle"
  | 3 => some "vehicle"
  | 5 => some "vehicle"
  | 7 => some "vehicle"
  | 15 => some "animal"
  | 16 => some "animal"
  | 17 => some "animal"
  | 18 => some "animal"
  | 19 => some "animal"
  | 20 => some "animal"
  | 21 => some "animal"
  | 22 => some "animal"
  | 23 => some "animal"
  | _ => none

/-- `getDetectionType`: `classMapping[classId] || 'obstacle'` (all mapped
strings are nonempty, hence truthy, so the JS fallback is exactly `getD`). -/
def getDetectionType (classId : ℕ) : String :=
  (classMapping classId).getD "obstacle"

/-- `getDangerLevel` of `VideoAnalysis.tsx`: the confidence floor first, then
a `switch` on the kind string with a `default` branch. -/
def getDangerLevel (type : String) (confidence : ℚ) : DangerLevel :=
  if confidence < (6 : ℚ)/10 then .low
  else
    match type with
    | "person" => if (8 : ℚ)/10 < confidence then .critical else .high
    | "vehicle" => .critical
    | "animal" => if (75 : ℚ)/100 < confidence then .high else .medium
    | "debris" => if (7 : ℚ)/10 < confidence then .medium else .low
    | "obstacle" => if (8 : ℚ)/10 < confidence then .high else .medium
    | _ => .medium

/-- Reference danger table transcribed from the specification text (section
4.2), to be compared against the source's `getDangerLevel`. -/
def specDangerTable (kind : String) (confidence : ℚ) : DangerLevel :=
  if confidence < (6 : ℚ)/10 then .low
  else if kind = "person" then (if (8 : ℚ)/10 < confidence then .critical else .high)
  else if kind = "vehicle" then .critical
  else if kind = "animal" then (if (75 : ℚ)/100 < confidence then .high else .medium)
  else if kind = "debris" then (if (7 : ℚ)/10 < confidence then .medium else .low)
  else if kind = "obstacle" then (if (8 : ℚ)/10 < confidence then .high else .medium)
  else .medium

/-- The fixed per-kind phrase sets of `getDescriptionForType`. -/
def descriptionsFor (type : String) : List String :=
  match type with
  | "person" => ["Person detected on tracks", "Human presence detected", "Pedestrian in danger zone"]
  | "animal" => ["Animal on railway tracks", "Wildlife detected", "Animal obstruction"]
  | "vehicle" => ["Vehicle on tracks", "Unauthorized vehicle", "Emergency vehicle"]
  | "obstacle" => ["Unknown object detected", "Potential obstruction", "Foreign object"]
  | "debris" => ["Debris on tracks", "Scattered objects", "Track obstruction"]
  | _ => []

/-- `getDescriptionForType`: the uncontrolled `Math.random()` draw is modelled
by an environment-supplied natural number `rand`; the source picks index
`floor(random * length)`, i.e. a uniform index below the length. -/
def getDescriptionForType (type : String) (rand : ℕ) : String :=
  let tds := if descriptionsFor type = [] then descriptionsFor "obstacle" else descriptionsFor type
  tds.getD (rand % tds.length) ""

/-- The result-conversion map inside `processFrame`
(`results.map((result, index) => {...})`); `now` is `Date.now()` at that
moment, used only in the generated id. -/
def processResults (now : ℕ) (results : List RawResult) : List DetectionResult :=
  results.mapIdx (fun index r =>
    { id := "det-" ++ toString now ++ "-" ++ toString index
      type := getDetectionType r.classId
      confidence := r.score
      bboxX := r.box.xmin
      bboxY := r.box.ymin
      bboxW := r.box.xmax - r.box.xmin
      bboxH := r.box.ymax - r.box.ymin
      centerX := (r.box.xmin + r.box.xmax) / 2
      centerY := (r.box.ymin + r.box.ymax) / 2 })

/-- The confidence filter inside `processFrame`:
`processedDetections.filter(det => det.confidence > 0.5)`. -/
def filterDetections (l : List DetectionResult) : List DetectionResult :=
  l.filter (fun det => decide ((5 : ℚ)/10 < det.confidence))

/-- The filter the specification describes (section 6): keep confidence at or
above the 0.5 threshold; transcribed from the spec's words for comparison. -/
def specConfidenceFilter (l : List DetectionResult) : List DetectionResult :=
  l.filter (fun det => decide ((5 : ℚ)/10 ≤ det.confidence))

/-- The pure core of a successful `processFrame` call: convert the raw model
results, then filter by confidence.  This is the list the hook resolves with
and hands to `analyzeCurrentFrame`. -/
def processFramePure (now : ℕ) (results : List RawResult) : List DetectionResult :=
  filterDetections (processResults now results)

/-- The domain `Detection` record of `VideoAnalysis.tsx`.  `timestamp`
(wall-clock `new Date()`) is a natural-number instant. -/
structure Detection where
  id : String
  type : String
  confidence : ℚ
  location : String
  dangerLevel : DangerLevel
  timestamp : ℕ
  description : String
  timeInVideo : Option ℚ
  deriving DecidableEq, Repr

/-- The conversion in `analyzeCurrentFrame`'s `forEach`: one hook
`DetectionResult` to one domain `Detection`.  `posAtResolve` is
`videoRef.current?.currentTime || 0` read when the result arrives (after the
await), `wallClock` is `new Date()`, `rand` feeds the description draw. -/
def toDetection (d : DetectionResult) (videoName : String) (posAtResolve : ℚ)
    (wallClock : ℕ) (rand : ℕ) : Detection :=
  { id := d.id
    type := d.type
    confidence := d.confidence
    location := "Video: " ++ videoName
    dangerLevel := getDangerLevel d.type d.confidence
    timestamp := wallClock
    description := getDescriptionForType d.type rand
    timeInVideo := some posAtResolve }

/-- Component-plus-hook state of one `VideoAnalysis` instance.  Live React
state is distinguished from the values captured by the installed interval
closure (`snapDetections`, `snapProcessing`); `status` is the parent-held
`video.status` driven through `onStatusUpdate`; `emitted` logs `onDetection`
calls and `completedWith` the argument of `onAnalysisComplete`. -/
structure CompState where
  videoName : String
  duration : ℚ
  pos : ℚ
  progress : ℚ
  isAnalyzing : Bool
  detections : List Detection
  status : VStatus
  running : Bool
  snapDetections : List Detection
  snapProcessing : Bool
  processing : Bool
  hookDetections : List DetectionResult
  hookError : Option String
  outstanding : ℕ
  analyzeCalls : ℕ
  emitted : List Detection
  completedWith : Option (List Detection)
  deriving DecidableEq, Repr

/-- Initial state for a freshly selected video of the given duration. -/
def initState (name : String) (dur : ℚ) : CompState :=
  { videoName := name
    duration := dur
    pos := 0
    progress := 0
    isAnalyzing := false
    detections := []
    status := .ready
    running := false
    snapDetections := []
    snapProcessing := false
    processing := false
    hookDetections := []
    hookError := none
    outstanding := 0
    analyzeCalls := 0
    emitted := []
    completedWith := none }

/-- A `currentTime` assignment: the media element clamps the seek to the
duration and fires `timeupdate`, whose handler recomputes `progress` as
`duration ? (current / duration) * 100 : 0`. -/
def updateTime (s : CompState) (p : ℚ) : CompState :=
  let clamped := min p s.duration
  { s with
    pos := clamped
    progress := if s.duration = 0 then 0 else clamped / s.duration * 100 }

/-- `video_element.ended`: the playback position has reached the end. -/
def hasEnded (s : CompState) : Bool :=
  decide (s.duration ≤ s.pos)

/-- `startAnalysis`: set the analyzing flag, clear `detections`, report
`analyzing` upward, rewind to 0, and install the interval.  The installed
closure captures the render-time values of `detections` and (inside the
captured `analyzeCurrentFrame`) `isProcessing`: the live values of the state
in which the click ran, before the `setDetections([])` reset lands. -/
def startAnalysis (s : CompState) : CompState :=
  let s1 := { s with
    isAnalyzing := true
    detections := []
    status := .analyzing
    running := true
    snapDetections := s.detections
    snapProcessing := s.processing }
  updateTime s1 0

/-- One firing of the interval callback.  If the element has ended: clear the
interval, drop the analyzing flag, report `completed`, and call
`onAnalysisComplete` with the closure-captured `detections`.  Otherwise run
`analyzeCurrentFrame` (which returns immediately when its captured
`isProcessing` is set, else synchronously enters `processFrame`: clears the
hook error, raises `isProcessing`, and leaves one more call outstanding) and
then advance `currentTime` by 2. -/
def tickStep (s : CompState) : CompState :=
  if s.running = false then s
  else if hasEnded s then
    { s with
      running := false
      isAnalyzing := false
      status := .completed
      completedWith := some s.snapDetections }
  else
    let s1 :=
      if s.snapProcessing then s
      else { s with
        processing := true
        hookError := none
        outstanding := s.outstanding + 1
        analyzeCalls := s.analyzeCalls + 1 }
    updateTime s1 (s1.pos + 2)

/-- Resolution of one outstanding `processFrame` call with model results.
The hook filters, stores its own `detections`, lowers `isProcessing`
(`finally`), and resolves; `analyzeCurrentFrame`'s continuation then converts
each result and appends it to the live component `detections` (the
`setDetections(prev => [...prev, detection])` functional update) and fires
`onDetection`.  `now`, `wallClock`, `rand` are the environment's clock and
randomness at resolution time. -/
def resolveOk (s : CompState) (results : List RawResult) (now wallClock rand : ℕ) :
    CompState :=
  let filtered := processFramePure now results
  let newDets := filtered.map (fun d => toDetection d s.videoName s.pos wallClock rand)
  { s with
    processing := false
    hookDetections := filtered
    outstanding := s.outstanding - 1
    detections := s.detections ++ newDets
    emitted := s.emitted ++ newDets }

/-- Rejection of one outstanding `processFrame` call: the hook records the
error message and lowers `isProcessing`; `analyzeCurrentFrame`'s `catch` logs
to the console and swallows the failure — nothing else changes. -/
def resolveErr (s : CompState) (msg : String) : CompState :=
  { s with
    processing := false
    hookError := some msg
    outstanding := s.outstanding - 1 }

/-- `stopAnalysis`: clear the interval, drop the analyzing flag, report
`ready` upward.  Detections and outstanding calls are untouched. -/
def stopAnalysis (s : CompState) : CompState :=
  { s with
    running := false
    isAnalyzing := false
    status := .ready }

/-- `handleReset`: rewind to 0, zero the progress, clear `detections`, and
stop the analysis when one is running. -/
def handleReset (s : CompState) : CompState :=
  let s1 := updateTime s 0
  let s2 := { s1 with detections := [], progress := 0 }
  if s2.isAnalyzing then stopAnalysis s2 else s2

/-- One detection row of the exported report. -/
structure ReportDetection where
  timeInVideo : ℚ
  type : String
  confidence : ℚ
  dangerLevel : DangerLevel
  description : String
  deriving DecidableEq, Repr

/-- The exported report object of `exportReport`. -/
structure Report where
  video : String
  analysisDate : ℕ
  totalDetections : ℕ
  detections : List ReportDetection
  deriving DecidableEq, Repr

/-- `exportReport`: serialize the session's detections (`d.timeInVideo || 0`
is `getD 0`, since a stored 0 maps to 0 either way); `now` is the export
instant.  The component state is returned unchanged: the handler only builds
and downloads the report blob. -/
def exportReport (s : CompState) (now : ℕ) : Report × CompState :=
  ({ video := s.videoName
     analysisDate := now
     totalDetections := s.detections.length
     detections := s.detections.map (fun d =>
       { timeInVideo := d.timeInVideo.getD 0
         type := d.type
         confidence := d.confidence
         dangerLevel := d.dangerLevel
         description := d.description }) }, s)

/-- External events driving one component instance. -/
inductive Ev
  | start
  | tick
  | resolveOk (results : List RawResult) (now wallClock rand : ℕ)
  | resolveErr (msg : String)
  | stop
  | reset
  deriving Repr

/-- Apply one event to the state. -/
def stepEv (s : CompState) : Ev → CompState
  | .start => startAnalysis s
  | .tick => tickStep s
  | .resolveOk results now wallClock rand => resolveOk s results now wallClock rand
  | .resolveErr msg => resolveErr s msg
  | .stop => stopAnalysis s
  | .reset => handleReset s

/-- Run a list of events from a state. -/
def runEvents (s : CompState) (l : List Ev) : CompState :=
  l.foldl stepEv s

/-- Progress as a fraction in [0, 1]: the component stores a percentage. -/
def progressFraction (s : CompState) : ℚ :=
  s.progress / 100

/-- A raw model result with the given score and class id 0, unit box. -/
def rawAt (score : ℚ) : RawResult :=
  { score := score, classId := 0, box := { xmin := 0, ymin := 0, xmax := 1, ymax := 1 } }

end TrackEye

namespace TrackEye

/-- End-to-end scenario A of the spec: duration 10, the five analyzed ticks,
each inference call resolving (with no detections) before the next tick. -/
def scenarioA : List Ev :=
  [.start,
   .tick, .resolveOk [] 0 0 0,
   .tick, .resolveOk [] 0 0 0,
   .tick, .resolveOk [] 0 0 0,
   .tick, .resolveOk [] 0 0 0,
   .tick, .resolveOk [] 0 0 0]

/-- A state at the end of the media: running loop, position at the duration,
progress already recomputed by the last `timeupdate`. -/
def sEnd : CompState :=
  { initState "video.mp4" 10 with running := true, pos := 10, progress := 100 }

end TrackEye

namespace TrackEye

/-- C1: For every kind string and every confidence in [0, 1], the source's
`getDangerLevel` agrees with the reference danger table transcribed from the
specification: the sub-0.6 floor yields `low` first, then per-kind rules
(person: critical above 0.8 else high; vehicle: critical; animal: high above
0.75 else medium; debris: medium above 0.7 else low; obstacle: high above 0.8
else medium; anything else: medium). -/
theorem getDangerLevel_matches_spec (kind : String) (c : ℚ)
    (h0 : 0 ≤ c) (h1 : c ≤ 1) :
    getDangerLevel kind c = specDangerTable kind c := by
  unfold getDangerLevel specDangerTable
  by_cases hc : c < (6 : ℚ)/10
  · simp [hc]
  · simp only [if_neg hc]
    split
    all_goals simp_all

/-- Witness for C1 at kind `debris`, confidence 0.55 (scenario C's input: the
confidence floor wins and both sides give `low`). -/
theorem getDangerLevel_matches_spec_witness :
    (0 ≤ (55 : ℚ)/100 ∧ (55 : ℚ)/100 ≤ 1)
  ∧ getDangerLevel "debris" ((55 : ℚ)/100) = specDangerTable "debris" ((55 : ℚ)/100) :=
  ⟨⟨by norm_num, by norm_num⟩,
   getDangerLevel_matches_spec "debris" ((55 : ℚ)/100) (by norm_num) (by norm_num)⟩

/-- C2: the tick guard reads the `isProcessing` value captured by the interval
closure when `startAnalysis` installed it, not the live value.  Evaluating the
loop on the failing input — start, a first tick whose inference call is still
unresolved, then a second tick — shows the first call still outstanding
(`processing` live flag raised, one call in flight) while the second tick
issues another call, leaving two inference calls outstanding at once, contrary
to the single-flight policy. -/
theorem singleFlight_violated :
    (runEvents (initState "video.mp4" 10) [.start, .tick]).processing = true
  ∧ (runEvents (initState "video.mp4" 10) [.start, .tick]).outstanding = 1
  ∧ (runEvents (initState "video.mp4" 10) [.start, .tick, .tick]).outstanding = 2 := by
  norm_num [runEvents, stepEv, tickStep, startAnalysis, updateTime, hasEnded, initState]

/-- Counterexample to C3: start analysis, one tick issues an inference call,
`stop` is invoked while it is in flight, and the call then resolves with one
high-confidence person.  The status is `ready`, but the late result is not
discarded: the detection is appended to `detections` and `onDetection` fires. -/
theorem stale_result_applied_cex :
    (runEvents (initState "video.mp4" 10)
      [.start, .tick, .stop, .resolveOk [rawAt ((9 : ℚ)/10)] 1 2 3]).status = .ready
  ∧ (runEvents (initState "video.mp4" 10)
      [.start, .tick, .stop, .resolveOk [rawAt ((9 : ℚ)/10)] 1 2 3]).detections ≠ []
  ∧ (runEvents (initState "video.mp4" 10)
      [.start, .tick, .stop, .resolveOk [rawAt ((9 : ℚ)/10)] 1 2 3]).emitted ≠ [] := by
  norm_num [runEvents, stepEv, tickStep, startAnalysis, stopAnalysis, resolveOk,
    updateTime, hasEnded, initState, processFramePure, processResults,
    filterDetections, rawAt, toDetection]

/-- C3 as amended: after `stop` mid-analysis the status is `ready`, not
`error`; but an inference call still in flight at the moment of stop is not
discarded when it arrives — its surviving results are appended to the
detections list and emitted through `onDetection`. -/
theorem stop_ready_late_result_applied (s : CompState) (results : List RawResult)
    (now wallClock rand : ℕ) :
    (stopAnalysis s).status = .ready
  ∧ (stopAnalysis s).status ≠ .error
  ∧ (stepEv (stopAnalysis s) (.resolveOk results now wallClock rand)).detections
      = s.detections ++ (processFramePure now results).map
          (fun d => toDetection d s.videoName s.pos wallClock rand)
  ∧ (stepEv (stopAnalysis s) (.resolveOk results now wallClock rand)).emitted
      = s.emitted ++ (processFramePure now results).map
          (fun d => toDetection d s.videoName s.pos wallClock rand) := by
  refine ⟨rfl, by simp [stopAnalysis], ?_, ?_⟩ <;> simp [stepEv, resolveOk, stopAnalysis]

/-- C4: when the source has ended, the next tick stops the loop, moves the
session to `completed`, and the progress fraction is 1; and on the concrete
scenario (duration 10, sampling step 2, calls resolving between ticks) exactly
5 non-skipped ticks run before the ended tick, after which the session is
`completed` with progress fraction 1 and the loop stopped. -/
theorem source_ended_completes (s : CompState)
    (hrun : s.running = true) (hdur : 0 < s.duration) (hpos : s.pos = s.duration)
    (hprog : s.progress = s.pos / s.duration * 100) :
    ((tickStep s).running = false
  ∧ (tickStep s).status = .completed
  ∧ progressFraction (tickStep s) = 1)
  ∧ ((runEvents (initState "video.mp4" 10) scenarioA).status = .analyzing
  ∧ (runEvents (initState "video.mp4" 10) scenarioA).analyzeCalls = 5
  ∧ (runEvents (initState "video.mp4" 10) (scenarioA ++ [.tick])).status = .completed
  ∧ (runEvents (initState "video.mp4" 10) (scenarioA ++ [.tick])).running = false
  ∧ progressFraction (runEvents (initState "video.mp4" 10) (scenarioA ++ [.tick])) = 1) := by
  have hend : hasEnded s = true := by simp [hasEnded, hpos]
  have hd0 : s.duration ≠ 0 := ne_of_gt hdur
  constructor
  · refine ⟨by simp [tickStep, hrun, hend], by simp [tickStep, hrun, hend], ?_⟩
    have : (tickStep s).progress = s.progress := by simp [tickStep, hrun, hend]
    rw [progressFraction, this, hprog, hpos, div_self hd0]
    norm_num
  · norm_num [scenarioA, runEvents, stepEv, tickStep, startAnalysis, resolveOk,
      updateTime, hasEnded, initState, processFramePure, processResults,
      filterDetections, progressFraction]

/-- Witness for C4 at the ended state of a 10-second video. -/
theorem source_ended_completes_witness :
    (sEnd.running = true ∧ 0 < sEnd.duration ∧ sEnd.pos = sEnd.duration
      ∧ sEnd.progress = sEnd.pos / sEnd.duration * 100)
  ∧ (((tickStep sEnd).running = false
  ∧ (tickStep sEnd).status = .completed
  ∧ progressFraction (tickStep sEnd) = 1)
  ∧ ((runEvents (initState "video.mp4" 10) scenarioA).status = .analyzing
  ∧ (runEvents (initState "video.mp4" 10) scenarioA).analyzeCalls = 5
  ∧ (runEvents (initState "video.mp4" 10) (scenarioA ++ [.tick])).status = .completed
  ∧ (runEvents (initState "video.mp4" 10) (scenarioA ++ [.tick])).running = false
  ∧ progressFraction (runEvents (initState "video.mp4" 10) (scenarioA ++ [.tick])) = 1)) :=
  ⟨⟨rfl, by norm_num [sEnd, initState], by norm_num [sEnd, initState],
    by norm_num [sEnd, initState]⟩,
   source_ended_completes sEnd rfl (by norm_num [sEnd, initState])
     (by norm_num [sEnd, initState]) (by norm_num [sEnd, initState])⟩

/-- Counterexample to C5: start analysis, one tick, the call resolves with a
high-confidence person (appending a detection), then the user stops.  The
status is back to `ready` while `detections` is nonempty, violating the
claimed invariant at a reachable state produced by the stop transition. -/
theorem ready_nonempty_detections_cex :
    (runEvents (initState "video.mp4" 10)
      [.start, .tick, .resolveOk [rawAt ((9 : ℚ)/10)] 1 2 3, .stop]).status = .ready
  ∧ (runEvents (initState "video.mp4" 10)
      [.start, .tick, .resolveOk [rawAt ((9 : ℚ)/10)] 1 2 3, .stop]).detections ≠ [] := by
  norm_num [runEvents, stepEv, tickStep, startAnalysis, stopAnalysis, resolveOk,
    updateTime, hasEnded, initState, processFramePure, processResults,
    filterDetections, rawAt, toDetection]

/-- C5 as amended: `detections` is empty with status `ready` in the initial
state, `startAnalysis` and `handleReset` clear it, but `stopAnalysis` sets
status `ready` while preserving the detections list unchanged, so the
invariant fails after a stop that follows appended detections. -/
theorem stop_preserves_detections (name : String) (dur : ℚ) (s : CompState) :
    ((initState name dur).status = .ready ∧ (initState name dur).detections = [])
  ∧ (startAnalysis s).detections = []
  ∧ (handleReset s).detections = []
  ∧ (stopAnalysis s).status = .ready
  ∧ (stopAnalysis s).detections = s.detections := by
  refine ⟨⟨rfl, rfl⟩, by simp [startAnalysis, updateTime], ?_, rfl, rfl⟩
  by_cases hA : s.isAnalyzing <;>
    simp [handleReset, stopAnalysis, updateTime, hA]

/-- Counterexample to C6: a raw detection with confidence exactly 0.5.  The
adapter's filter (`confidence > 0.5`) discards it, while the spec's ≥ 0.5
filter keeps it, so the code does not pass on exactly the detections with
confidence at or above 0.5. -/
theorem filter_threshold_cex :
    processFramePure 0 [rawAt ((5 : ℚ)/10)] = []
  ∧ specConfidenceFilter (processResults 0 [rawAt ((5 : ℚ)/10)])
      = processResults 0 [rawAt ((5 : ℚ)/10)]
  ∧ processResults 0 [rawAt ((5 : ℚ)/10)] ≠ [] := by
  norm_num [processFramePure, processResults, filterDetections,
    specConfidenceFilter, rawAt]

/-- C6 as amended: the adapter boundary passes on exactly the converted
detections with confidence strictly above 0.5; every detection with
confidence at most 0.5 is discarded there rather than classified. -/
theorem filter_strict_threshold (now : ℕ) (raws : List RawResult)
    (d : DetectionResult) :
    d ∈ processFramePure now raws
      ↔ d ∈ processResults now raws ∧ (5 : ℚ)/10 < d.confidence := by
  simp [processFramePure, filterDetections, List.mem_filter]

/-- C7: an unrecognized class id is mapped to kind `obstacle` by
`getDetectionType`, and its danger level is exactly the obstacle rule: `low`
below confidence 0.6, otherwise `high` above 0.8 and `medium` below;
classification is a total function and never fails. -/
theorem unrecognized_kind_obstacle (classId : ℕ) (c : ℚ)
    (h : classMapping classId = none) :
    getDetectionType classId = "obstacle"
  ∧ getDangerLevel (getDetectionType classId) c
      = (if c < (6 : ℚ)/10 then .low
         else if (8 : ℚ)/10 < c then .high else .medium) := by
  have ht : getDetectionType classId = "obstacle" := by
    simp [getDetectionType, h]
  refine ⟨ht, ?_⟩
  rw [ht]
  unfold getDangerLevel
  by_cases hc : c < (6 : ℚ)/10 <;> simp [hc]

/-- Witness for C7 at class id 99 (absent from `classMapping`) and
confidence 0.9, where the obstacle rule gives `high`. -/
theorem unrecognized_kind_obstacle_witness :
    classMapping 99 = none
  ∧ getDetectionType 99 = "obstacle"
  ∧ getDangerLevel (getDetectionType 99) ((9 : ℚ)/10) = .high := by
  have h := unrecognized_kind_obstacle 99 ((9 : ℚ)/10) rfl
  refine ⟨rfl, h.1, ?_⟩
  rw [h.2]
  norm_num

/-- C8: when the inference call of a tick rejects, the failure is recorded in
the hook's error state and swallowed: no detection is appended, nothing is
emitted, the session status stays `analyzing`, and the interval keeps running
for subsequent ticks. -/
theorem tick_failure_swallowed (s : CompState) (msg : String)
    (hst : s.status = .analyzing) (hrun : s.running = true) :
    (stepEv s (.resolveErr msg)).detections = s.detections
  ∧ (stepEv s (.resolveErr msg)).emitted = s.emitted
  ∧ (stepEv s (.resolveErr msg)).status = .analyzing
  ∧ (stepEv s (.resolveErr msg)).running = true
  ∧ (stepEv s (.resolveErr msg)).hookError = some msg := by
  simp [stepEv, resolveErr, hst, hrun]

/-- Witness for C8 on the state after start and one tick of a 10-second
video, with the call rejecting. -/
theorem tick_failure_swallowed_witness :
    ((runEvents (initState "video.mp4" 10) [.start, .tick]).status = .analyzing
      ∧ (runEvents (initState "video.mp4" 10) [.start, .tick]).running = true)
  ∧ ((stepEv (runEvents (initState "video.mp4" 10) [.start, .tick])
        (.resolveErr "Detection failed: boom")).detections
      = (runEvents (initState "video.mp4" 10) [.start, .tick]).detections
  ∧ (stepEv (runEvents (initState "video.mp4" 10) [.start, .tick])
        (.resolveErr "Detection failed: boom")).emitted
      = (runEvents (initState "video.mp4" 10) [.start, .tick]).emitted
  ∧ (stepEv (runEvents (initState "video.mp4" 10) [.start, .tick])
        (.resolveErr "Detection failed: boom")).status = .analyzing
  ∧ (stepEv (runEvents (initState "video.mp4" 10) [.start, .tick])
        (.resolveErr "Detection failed: boom")).running = true
  ∧ (stepEv (runEvents (initState "video.mp4" 10) [.start, .tick])
        (.resolveErr "Detection failed: boom")).hookError
      = some "Detection failed: boom") :=
  ⟨⟨by norm_num [runEvents, stepEv, tickStep, startAnalysis, updateTime, hasEnded, initState],
    by norm_num [runEvents, stepEv, tickStep, startAnalysis, updateTime, hasEnded, initState]⟩,
   tick_failure_swallowed (runEvents (initState "video.mp4" 10) [.start, .tick])
     "Detection failed: boom"
     (by norm_num [runEvents, stepEv, tickStep, startAnalysis, updateTime, hasEnded, initState])
     (by norm_num [runEvents, stepEv, tickStep, startAnalysis, updateTime, hasEnded, initState])⟩

/-- C9: exporting a completed session twice yields identical detection arrays
— each row carrying, in session order, the elapsed video time (0 when
absent), kind, confidence, danger level and description — with only the
export timestamp differing, and exporting returns the session state
unchanged. -/
theorem export_idempotent (s : CompState) (t1 t2 : ℕ)
    (h : s.status = .completed) :
    (exportReport s t1).1.detections = (exportReport s t2).1.detections
  ∧ (exportReport s t1).2 = s
  ∧ (exportReport s t1).1.analysisDate = t1
  ∧ (exportReport s t2).1.analysisDate = t2
  ∧ (exportReport s t1).1.video = s.videoName
  ∧ (exportReport s t1).1.totalDetections = s.detections.length
  ∧ (exportReport s t1).1.detections = s.detections.map (fun d =>
      { timeInVideo := d.timeInVideo.getD 0
        type := d.type
        confidence := d.confidence
        dangerLevel := d.dangerLevel
        description := d.description }) := by
  simp [exportReport]

/-- Witness for C9 on a completed 2-second session holding one detection,
exported at instants 3 and 7. -/
theorem export_idempotent_witness :
    (runEvents (initState "video.mp4" 2)
        [.start, .tick, .resolveOk [rawAt ((9 : ℚ)/10)] 1 2 3, .tick]).status = .completed
  ∧ (exportReport (runEvents (initState "video.mp4" 2)
        [.start, .tick, .resolveOk [rawAt ((9 : ℚ)/10)] 1 2 3, .tick]) 3).1.detections
      = (exportReport (runEvents (initState "video.mp4" 2)
        [.start, .tick, .resolveOk [rawAt ((9 : ℚ)/10)] 1 2 3, .tick]) 7).1.detections :=
  ⟨by norm_num [runEvents, stepEv, tickStep, startAnalysis, resolveOk, updateTime,
      hasEnded, initState, processFramePure, processResults, filterDetections,
      rawAt, toDetection],
   (export_idempotent (runEvents (initState "video.mp4" 2)
        [.start, .tick, .resolveOk [rawAt ((9 : ℚ)/10)] 1 2 3, .tick]) 3 7
      (by norm_num [runEvents, stepEv, tickStep, startAnalysis, resolveOk, updateTime,
        hasEnded, initState, processFramePure, processResults, filterDetections,
        rawAt, toDetection])).1⟩

/-- C10: the interval closure installed by `startAnalysis` captures the
pre-start `detections` value (the live list is reset to empty), appends during
the run do not change that captured value, and the ended tick passes exactly
the captured value to `onAnalysisComplete`; on a concrete 2-second run that
appends one detection, the completion callback receives the empty captured
list while the live list is nonempty. -/
theorem complete_callback_snapshot (s s2 : CompState)
    (results : List RawResult) (now wallClock rand : ℕ)
    (hrun : s2.running = true) (hend : s2.duration ≤ s2.pos) :
    (startAnalysis s).snapDetections = s.detections
  ∧ (startAnalysis s).detections = []
  ∧ (resolveOk s2 results now wallClock rand).snapDetections = s2.snapDetections
  ∧ (tickStep s2).completedWith = some s2.snapDetections
  ∧ (runEvents (initState "video.mp4" 2)
      [.start, .tick, .resolveOk [rawAt ((9 : ℚ)/10)] 1 2 3, .tick]).completedWith
      = some []
  ∧ (runEvents (initState "video.mp4" 2)
      [.start, .tick, .resolveOk [rawAt ((9 : ℚ)/10)] 1 2 3, .tick]).detections ≠ [] := by
  have he : hasEnded s2 = true := by simp [hasEnded, hend]
  refine ⟨by simp [startAnalysis, updateTime], by simp [startAnalysis, updateTime],
    rfl, by simp [tickStep, hrun, he], ?_, ?_⟩ <;>
  norm_num [runEvents, stepEv, tickStep, startAnalysis, resolveOk, updateTime,
    hasEnded, initState, processFramePure, processResults, filterDetections,
    rawAt, toDetection]

/-- Witness for C10 at the state of the concrete 2-second run just before its
ended tick (position 2, one appended detection, loop still running). -/
theorem complete_callback_snapshot_witness :
    ((runEvents (initState "video.mp4" 2)
        [.start, .tick, .resolveOk [rawAt ((9 : ℚ)/10)] 1 2 3]).running = true
  ∧ (runEvents (initState "video.mp4" 2)
        [.start, .tick, .resolveOk [rawAt ((9 : ℚ)/10)] 1 2 3]).duration
      ≤ (runEvents (initState "video.mp4" 2)
        [.start, .tick, .resolveOk [rawAt ((9 : ℚ)/10)] 1 2 3]).pos)
  ∧ (tickStep (runEvents (initState "video.mp4" 2)
        [.start, .tick, .resolveOk [rawAt ((9 : ℚ)/10)] 1 2 3])).completedWith
      = some (runEvents (initState "video.mp4" 2)
        [.start, .tick, .resolveOk [rawAt ((9 : ℚ)/10)] 1 2 3]).snapDetections :=
  ⟨⟨by norm_num [runEvents, stepEv, tickStep, startAnalysis, resolveOk, updateTime,
      hasEnded, initState, processFramePure, processResults, filterDetections,
      rawAt, toDetection],
    by norm_num [runEvents, stepEv, tickStep, startAnalysis, resolveOk, updateTime,
      hasEnded, initState, processFramePure, processResults, filterDetections,
      rawAt, toDetection]⟩,
   (complete_callback_snapshot (initState "video.mp4" 2)
      (runEvents (initState "video.mp4" 2)
        [.start, .tick, .resolveOk [rawAt ((9 : ℚ)/10)] 1 2 3]) [] 0 0 0
      (by norm_num [runEvents, stepEv, tickStep, startAnalysis, resolveOk, updateTime,
        hasEnded, initState, processFramePure, processResults, filterDetections,
        rawAt, toDetection])
      (by norm_num [runEvents, stepEv, tickStep, startAnalysis, resolveOk, updateTime,
        hasEnded, initState, processFramePure, processResults, filterDetections,
        rawAt, toDetection])).2.2.2.1⟩

end TrackEye
